import Mathlib

/-!
Shallow embedding of the secure range-addressable streaming gateway of
`src/web/main.py` (stream_handler, media_streamer, verify_stream_token,
clean_cache and the class_cache interaction), together with theorems
settling the specification claims about it.

Python integers are modelled as `Int`; Python `//` and `%` are modelled by
`Int.ediv` and `Int.emod`, which agree with Python floor division and modulo
whenever the divisor is positive — every division in the translated code
either has the literal positive divisor 10 or is guarded by the explicit
zero test that models Python's `ZeroDivisionError`.  `math.ceil(a / b)` and
`math.floor(a / b)` are modelled exactly (the float round-trip in the source
is exact for all realistic file sizes, far below 2^53).
-/

namespace Reelnn

/-- Python `a // b` (floor division) for a positive divisor `b`. -/
def pyFloorDiv (a b : Int) : Int := Int.ediv a b

/-- Python `a % b` for a positive divisor `b`: the result lies in `[0, b)`. -/
def pyMod (a b : Int) : Int := Int.emod a b

/-- Exact value of `math.ceil(a / b)` for a positive divisor `b`. -/
def ceilDiv (a b : Int) : Int := -(Int.ediv (-a) b)

/-- The decoded JWT payload fields that `verify_stream_token` (main.py 81-88)
and `stream_handler` (main.py 232-240) read.  `none` models an absent key;
`id` and `fileId` hold the `str(...)` image of the raw claim value. -/
structure TokenData where
  id : Option String
  fileId : Option String
  mediaType : Option String
  qualityIndex : Option Int
  seasonNumber : Option Int
  episodeNumber : Option Int
  expiry : Option Int
deriving DecidableEq, Repr

/-- `verify_stream_token` (main.py 81-88) after a successful signature check
(`jwt.decode` succeeding is modelled by the caller passing `some` payload; a
`jwt.PyJWTError` is modelled in `stream_handler`).  The expiry comparison is
evaluated only when the `expiry` key is present. -/
def verify_stream_token (decoded : TokenData) (now : Int) : Except Nat TokenData :=
  match decoded.expiry with
  | some e => if e < now then Except.error 401 else Except.ok decoded
  | none => Except.ok decoded

/-- Outcome of the authorization logic of `stream_handler` (main.py 242-250). -/
inductive AuthDecision where
  | authorized (is_bundle : Bool)
  | rejected (status : Nat)
deriving DecidableEq, Repr

/-- The authorization logic of `stream_handler` (main.py 242-250):
`token_file_id` truthy and equal to the requested id authorizes the bundle
override path; otherwise the requested id must equal `token_id`. -/
def authorize_stream (token_id token_file_id id : String) : AuthDecision :=
  if token_file_id ≠ "" ∧ token_file_id = id then AuthDecision.authorized true
  else if token_id ≠ id then AuthDecision.rejected 401
  else AuthDecision.authorized false

/-- The fields of the Telegram `FileId` object that `media_streamer` reads
(main.py 340-395), as returned by `get_file_properties`. -/
structure FileProperties where
  unique_id : String
  file_size : Nat
  mime_type : Option String
  file_name : Option String
deriving DecidableEq, Repr

/-- Python exceptions that can escape the translated code, plus
`fastapi.HTTPException` with its status code. -/
inductive PyError where
  | httpException (status : Nat)
  | invalidHash
  | zeroDivisionError
  | valueError
  | keyError
  | timeoutError
deriving DecidableEq, Repr

/-- The chunk plan computed by `media_streamer` (main.py 374-378). -/
structure ChunkPlan where
  offset : Int
  first_part_cut : Int
  last_part_cut : Int
  req_length : Int
  part_count : Int
  chunk_size : Int
deriving DecidableEq, Repr

/-- The response produced by `media_streamer`: either the 416 response of
main.py 364-369 (carrying the total size placed in `Content-Range: bytes
*!/{total}`) or a streaming response carrying the HTTP status (206 with a
Range header, else 200), the chunk plan handed to `yield_file`, the
`Content-Range` bounds `from-until/total` and the `Content-Length` value. -/
inductive StreamResponse where
  | rangeNotSatisfiable (total : Nat)
  | streaming (status : Nat) (plan : ChunkPlan) (from_bytes until_bytes : Int)
      (total : Nat) (content_length : Int)
deriving DecidableEq, Repr

/-- Decidable equality for `Except`, used to evaluate the translated code on
concrete inputs. -/
instance {ε α : Type} [DecidableEq ε] [DecidableEq α] : DecidableEq (Except ε α) :=
  fun a b =>
    match a, b with
    | Except.ok x, Except.ok y =>
      if h : x = y then isTrue (by rw [h])
      else isFalse (fun hh => h (Except.ok.inj hh))
    | Except.error x, Except.error y =>
      if h : x = y then isTrue (by rw [h])
      else isFalse (fun hh => h (Except.error.inj hh))
    | Except.ok _, Except.error _ => isFalse (fun hh => Except.noConfusion hh)
    | Except.error _, Except.ok _ => isFalse (fun hh => Except.noConfusion hh)

/-- Python `min(work_loads, key=work_loads.get)` keeps the first key (in dict
iteration order) attaining the minimal value; later keys replace it only on a
strictly smaller value. -/
def py_min_by_load (best : Nat × Nat) : List (Nat × Nat) → Nat × Nat
  | [] => best
  | p :: rest => py_min_by_load (if p.2 < best.2 then p else best) rest

/-- `min(work_loads, key=work_loads.get)` (main.py 324) over the dict in
iteration order; `none` models the `ValueError` Python raises on an empty
dict (the preceding empty check on main.py 321-322 only logs a warning). -/
def select_client (work_loads : List (Nat × Nat)) : Option Nat :=
  match work_loads with
  | [] => none
  | p :: rest => some (py_min_by_load p rest).1

/-- The integrity gate of `media_streamer` (main.py 345-353): `true` exactly
when streaming may proceed past the hash check.  `if secure_hash:` skips the
check for `None` and for the empty string; otherwise the first 6 characters
of the fetched file's unique id must equal the stored hash. -/
def integrity_check (secure_hash : Option String) (unique_id : String) : Bool :=
  match secure_hash with
  | none => true
  | some h => if h = "" then true else unique_id.take 6 == h

/-- The chunk arithmetic of `media_streamer` (main.py 374-378), verbatim:
`offset`, `first_part_cut`, `last_part_cut`, `req_length`, `part_count`. -/
def code_chunk_plan (from_bytes until_bytes chunk_size : Int) : ChunkPlan :=
  let offset := from_bytes - pyMod from_bytes chunk_size
  { offset := offset
    first_part_cut := from_bytes - offset
    last_part_cut := pyMod until_bytes chunk_size + 1
    req_length := until_bytes - from_bytes + 1
    part_count := ceilDiv until_bytes chunk_size - pyFloorDiv offset chunk_size
    chunk_size := chunk_size }

/-- The range-handling tail of `media_streamer` (main.py 355-410).  The parsed
`Range` header is `none` when absent (main.py 319 defaults it to `0`, falsy),
`some (f, some u)` for `bytes=f-u` and `some (f, none)` for `bytes=f-`.  The
order of the source is kept: the unsatisfiable-range test (line 364, note it
compares `until_bytes > file_size`, not `file_size - 1`) runs before the
chunk-size computation (line 371), the clamp of `until_bytes` (line 372) and
the chunk arithmetic, whose `from_bytes % chunk_size` raises
`ZeroDivisionError` when `chunk_size = 0`.  The streaming response carries
`req_length` as `Content-Length` (line 403). -/
def media_streamer_range (props : FileProperties)
    (range_header : Option (Int × Option Int)) : Except PyError StreamResponse :=
  let file_size : Int := (props.file_size : Int)
  let from_bytes : Int :=
    match range_header with
    | none => 0
    | some (f, _) => f
  let until_bytes : Int :=
    match range_header with
    | none => file_size - 1
    | some (_, none) => file_size - 1
    | some (_, some u) => u
  if until_bytes > file_size ∨ from_bytes < 0 ∨ until_bytes < from_bytes then
    Except.ok (StreamResponse.rangeNotSatisfiable props.file_size)
  else
    let chunk_size : Int := min 1048576 (pyFloorDiv file_size 10)
    let until_clamped : Int := min until_bytes (file_size - 1)
    if chunk_size = 0 then
      Except.error PyError.zeroDivisionError
    else
      let plan := code_chunk_plan from_bytes until_clamped chunk_size
      Except.ok (StreamResponse.streaming (if range_header.isSome then 206 else 200)
        plan from_bytes until_clamped props.file_size plan.req_length)

/-- `media_streamer` (main.py 318-410).  Ambient state and I/O results are
explicit parameters: `work_loads`/`multi_clients` are the global client
registries (dict in iteration order, resp. set of registered keys), `props`
is the successful result of `get_file_properties`.  Client selection happens
first; `multi_clients[index]` on line 325 raises `KeyError` when the index is
missing, which makes the 503 guard on lines 327-329 unreachable.  The
`class_cache` interaction (lines 333-337) does not influence the response and
is modelled separately by `acquire_handle`. -/
def media_streamer (work_loads : List (Nat × Nat)) (multi_clients : List Nat)
    (props : FileProperties) (secure_hash : Option String)
    (range_header : Option (Int × Option Int)) : Except PyError StreamResponse :=
  match select_client work_loads with
  | none => Except.error PyError.valueError
  | some index =>
    if index ∈ multi_clients then
      if integrity_check secure_hash props.unique_id then
        media_streamer_range props range_header
      else
        Except.error PyError.invalidHash
    else
      Except.error PyError.keyError

/-- The bundle-collection fields read by `stream_handler` (main.py 269-289). -/
structure BundleRecord where
  msg_id : Int
  chat_id : Int
  file_hash : Option String
deriving DecidableEq, Repr

/-- The exception mapping of `stream_handler`'s outer handler (main.py
306-315): `TimeoutError` becomes 503, `HTTPException` passes through, every
other exception (`InvalidHash`, `ZeroDivisionError`, `ValueError`,
`KeyError`) becomes 500. -/
def map_stream_error (e : PyError) : Nat :=
  match e with
  | PyError.httpException s => s
  | PyError.timeoutError => 503
  | PyError.invalidHash => 500
  | PyError.zeroDivisionError => 500
  | PyError.valueError => 500
  | PyError.keyError => 500

/-- `stream_handler` (main.py 216-315).  `decoded = none` models
`jwt.decode` raising `jwt.PyJWTError` (caught inside `verify_stream_token`
and turned into a 401).  `bundle_by_hash`/`bundle_by_file_id` are the results
of the two `find_one` lookups; `video_details` is the outcome of
`get_video_details` together with the field extraction on main.py 300-302.
Authorization runs before any lookup; in the bundle path a falsy stored
`file_hash` is replaced by `None` (legacy carve-out, main.py 285-289). -/
def stream_handler (decoded : Option TokenData) (now : Int) (id : String)
    (bundle_by_hash bundle_by_file_id : Option BundleRecord)
    (video_details : Except PyError (Int × Int × String))
    (work_loads : List (Nat × Nat)) (multi_clients : List Nat)
    (props : FileProperties) (range_header : Option (Int × Option Int)) :
    Except Nat StreamResponse :=
  match decoded with
  | none => Except.error 401
  | some tok =>
    match verify_stream_token tok now with
    | Except.error s => Except.error s
    | Except.ok token_data =>
      let token_id := Option.getD token_data.id ""
      let token_file_id := Option.getD token_data.fileId ""
      match authorize_stream token_id token_file_id id with
      | AuthDecision.rejected s => Except.error s
      | AuthDecision.authorized is_bundle =>
        let result : Except PyError StreamResponse :=
          if is_bundle then
            match bundle_by_hash.orElse (fun _ => bundle_by_file_id) with
            | none => Except.error (PyError.httpException 404)
            | some bundle =>
              let secure_hash : Option String :=
                match bundle.file_hash with
                | none => none
                | some h => if h = "" then none else some h
              media_streamer work_loads multi_clients props secure_hash range_header
          else
            match video_details with
            | Except.error e => Except.error e
            | Except.ok fd =>
              media_streamer work_loads multi_clients props (some fd.2.2) range_header
        match result with
        | Except.ok r => Except.ok r
        | Except.error e => Except.error (map_stream_error e)

/-- The `class_cache` interaction of `media_streamer` (main.py 333-337),
restricted to the data eviction depends on: client key and the stored
`timestamp`.  On a hit the cache is left untouched (no field is written); on
a miss a fresh entry is appended with the current time. -/
def acquire_handle (cache : List (Nat × Int)) (client : Nat) (now : Int) :
    List (Nat × Int) :=
  if (cache.lookup client).isSome then cache else cache ++ [(client, now)]

/-- `clean_cache` (main.py 412-416): drop every entry whose stored timestamp
is more than 3600 seconds old. -/
def clean_cache (cache : List (Nat × Int)) (now : Int) : List (Nat × Int) :=
  cache.filter (fun kv => decide (now - kv.2 ≤ 3600))

/-- ChunkPlanner exactly as the spec words it (spec §4.3 steps 3-7):
`alignedOffset = fromByte - (fromByte mod chunkSize)`, `firstChunkTrim =
fromByte - alignedOffset`, `lastChunkTrim = (untilByte mod chunkSize) + 1`,
`chunkCount = ceil(untilByte / chunkSize) - floor(alignedOffset / chunkSize)`,
`requestedLength = untilByte - fromByte + 1`; for comparison with
`code_chunk_plan`. -/
def spec_chunk_plan (fromByte untilByte chunkSize : Int) : ChunkPlan :=
  let alignedOffset := fromByte - Int.emod fromByte chunkSize
  { offset := alignedOffset
    first_part_cut := fromByte - alignedOffset
    last_part_cut := Int.emod untilByte chunkSize + 1
    req_length := untilByte - fromByte + 1
    part_count := ceilDiv untilByte chunkSize - Int.ediv alignedOffset chunkSize
    chunk_size := chunkSize }

/-- A 100-byte file used as concrete input. -/
def props100 : FileProperties :=
  { unique_id := "abc123xyz999", file_size := 100, mime_type := none, file_name := none }

/-- A 10 MB file used as concrete input. -/
def props10M : FileProperties :=
  { unique_id := "abc123xyz999", file_size := 10000000, mime_type := none, file_name := none }

/-- A 5-byte file used as concrete input. -/
def props5 : FileProperties :=
  { unique_id := "abc123xyz999", file_size := 5, mime_type := none, file_name := none }

/-- A token payload with `id = "C1"`, `fileId = "F1"` and no expiry claim. -/
def tok_c1 : TokenData :=
  { id := some "C1", fileId := some "F1", mediaType := none, qualityIndex := none,
    seasonNumber := none, episodeNumber := none, expiry := none }

/-- A token payload with `id = "C1"` and no other claims. -/
def tok_no_expiry : TokenData :=
  { id := some "C1", fileId := none, mediaType := none, qualityIndex := none,
    seasonNumber := none, episodeNumber := none, expiry := none }

/-- A 1000-byte file used as concrete input. -/
def props1000 : FileProperties :=
  { unique_id := "abcdefxyz999", file_size := 1000, mime_type := none, file_name := none }

theorem ceilDiv_eq_ediv_add_one (u c : Int) (hc : 0 < c) (h : Int.emod u c ≠ 0) :
    ceilDiv u c = Int.ediv u c + 1 := by
  unfold ceilDiv
  have h1 : c * Int.ediv u c + Int.emod u c = u := Int.ediv_add_emod u c
  have h2 : c * Int.ediv (-u) c + Int.emod (-u) c = -u := Int.ediv_add_emod (-u) c
  have h3 : 0 ≤ Int.emod u c := Int.emod_nonneg u (ne_of_gt hc)
  have h4 : Int.emod u c < c := Int.emod_lt_of_pos u hc
  have h5 : 0 ≤ Int.emod (-u) c := Int.emod_nonneg (-u) (ne_of_gt hc)
  have h6 : Int.emod (-u) c < c := Int.emod_lt_of_pos (-u) hc
  have hru : 0 < Int.emod u c := lt_of_le_of_ne h3 (Ne.symm h)
  have hsum : c * (Int.ediv u c + Int.ediv (-u) c) =
      -(Int.emod u c + Int.emod (-u) c) := by ring_nf; linarith
  have hlt : c * (Int.ediv u c + Int.ediv (-u) c) < c * 0 := by
    rw [hsum]; linarith
  have hgt : c * (-2) < c * (Int.ediv u c + Int.ediv (-u) c) := by
    rw [hsum]; linarith
  have hs1 : Int.ediv u c + Int.ediv (-u) c < 0 :=
    lt_of_mul_lt_mul_left hlt (le_of_lt hc)
  have hs2 : -2 < Int.ediv u c + Int.ediv (-u) c :=
    lt_of_mul_lt_mul_left hgt (le_of_lt hc)
  omega

theorem aligned_offset_eq (f c : Int) : f - Int.emod f c = c * Int.ediv f c := by
  have h1 : c * Int.ediv f c + Int.emod f c = f := Int.ediv_add_emod f c
  linarith

theorem media_streamer_range_no_hash_error (props : FileProperties)
    (range_header : Option (Int × Option Int)) :
    media_streamer_range props range_header ≠ Except.error PyError.invalidHash := by
  simp only [media_streamer_range]
  split_ifs <;> simp

/-- C5: the chunk plan computed in `media_streamer` coincides with the spec's
reference ChunkPlanner definition, and on `totalSize = 10000000`,
`fromByte = 1500000`, `untilByte = 2500000` the derived chunk size is
1000000 and the plan is `alignedOffset = 1000000`, `firstChunkTrim = 500000`,
`lastChunkTrim = 500001`, `chunkCount = 2`, with `requestedLength = 1000001`
placed in Content-Length. -/
theorem chunk_plan_matches_reference :
    (∀ f u c : Int, code_chunk_plan f u c = spec_chunk_plan f u c)
    ∧ media_streamer_range props10M (some (1500000, some 2500000)) =
        Except.ok (StreamResponse.streaming 206
          { offset := 1000000, first_part_cut := 500000, last_part_cut := 500001,
            req_length := 1000001, part_count := 2, chunk_size := 1000000 }
          1500000 2500000 10000000 1000001) :=
  ⟨fun _ _ _ => rfl, by decide⟩

/-- C3 counterexample: with `totalSize = 100` the request `fromByte = 0,
untilByte = 100` (one past the last valid byte) is not answered with 416: the
code's test compares `until_bytes > file_size`, not `file_size - 1`, so the
request passes and the clamp on main.py 372 turns it into a 206 streaming
response for bytes 0-99. -/
theorem range_check_counterexample :
    media_streamer_range props100 (some (0, some 100)) =
      Except.ok (StreamResponse.streaming 206
        { offset := 0, first_part_cut := 0, last_part_cut := 10, req_length := 100,
          part_count := 10, chunk_size := 10 } 0 99 100 100)
    ∧ media_streamer_range props100 (some (0, some 100)) ≠
        Except.ok (StreamResponse.rangeNotSatisfiable 100) := by decide

/-- C3 amended: `media_streamer` returns the 416 response (with
`Content-Range: bytes */total`) exactly when `untilByte > totalSize` — not
`totalSize - 1` — or `fromByte < 0` or `untilByte < fromByte`; the boundary
request `untilByte = totalSize` is instead clamped to `totalSize - 1` and
streamed.  No chunk arithmetic is reached on the 416 path. -/
theorem range_check_amended (props : FileProperties) (f u : Int) :
    media_streamer_range props (some (f, some u)) =
        Except.ok (StreamResponse.rangeNotSatisfiable props.file_size) ↔
      (u > (props.file_size : Int) ∨ f < 0 ∨ u < f) := by
  simp only [media_streamer_range]
  split_ifs with h1 h2 h3 <;> simp [h1]

/-- C4: for every file of `totalSize ≤ 9` the derived chunk size
`min(1 MiB, totalSize // 10)` is 0, any range surviving the
unsatisfiable-range test reaches `from_bytes % chunk_size` and dies with
`ZeroDivisionError` (mapped to 500 by `stream_handler`), the full-file
window of a nonempty such file does too, and no request on such a file ever
yields a byte-carrying streaming response. -/
theorem small_file_cannot_stream (props : FileProperties)
    (hsize : props.file_size ≤ 9) :
    min 1048576 (pyFloorDiv (props.file_size : Int) 10) = 0
    ∧ (∀ f u : Int, ¬(u > (props.file_size : Int) ∨ f < 0 ∨ u < f) →
        media_streamer_range props (some (f, some u)) =
          Except.error PyError.zeroDivisionError)
    ∧ (1 ≤ props.file_size →
        media_streamer_range props none = Except.error PyError.zeroDivisionError)
    ∧ (∀ (range_header : Option (Int × Option Int)) (s : Nat) (plan : ChunkPlan)
        (fb ub : Int) (t : Nat) (cl : Int),
        media_streamer_range props range_header ≠
          Except.ok (StreamResponse.streaming s plan fb ub t cl))
    ∧ map_stream_error PyError.zeroDivisionError = 500 := by
  have hchunk : min 1048576 (pyFloorDiv (props.file_size : Int) 10) = 0 := by
    have h0 : (0 : Int) ≤ (props.file_size : Int) := Int.ofNat_nonneg _
    have h9 : (props.file_size : Int) < 10 := by
      exact_mod_cast Nat.lt_succ_of_le hsize
    have hz : pyFloorDiv (props.file_size : Int) 10 = 0 :=
      Int.ediv_eq_zero_of_lt h0 h9
    rw [hz]
    decide
  refine ⟨hchunk, ?_, ?_, ?_, rfl⟩
  · intro f u hok
    simp only [media_streamer_range]
    rw [if_neg hok, if_pos hchunk]
  · intro h1
    have h1i : (1 : Int) ≤ (props.file_size : Int) := by exact_mod_cast h1
    simp only [media_streamer_range]
    rw [if_neg (by push_neg; omega), if_pos hchunk]
  · intro range_header s plan fb ub t cl
    simp only [media_streamer_range]
    split_ifs with h1 h2 h3 <;>
      first
      | simp
      | exact absurd hchunk h2

/-- C4 witness: the 5-byte file. -/
theorem small_file_cannot_stream_witness :
    props5.file_size ≤ 9
    ∧ (min 1048576 (pyFloorDiv (props5.file_size : Int) 10) = 0
      ∧ (∀ f u : Int, ¬(u > (props5.file_size : Int) ∨ f < 0 ∨ u < f) →
          media_streamer_range props5 (some (f, some u)) =
            Except.error PyError.zeroDivisionError)
      ∧ (1 ≤ props5.file_size →
          media_streamer_range props5 none = Except.error PyError.zeroDivisionError)
      ∧ (∀ (range_header : Option (Int × Option Int)) (s : Nat) (plan : ChunkPlan)
          (fb ub : Int) (t : Nat) (cl : Int),
          media_streamer_range props5 range_header ≠
            Except.ok (StreamResponse.streaming s plan fb ub t cl))
      ∧ map_stream_error PyError.zeroDivisionError = 500) :=
  ⟨by decide, small_file_cannot_stream props5 (by decide)⟩

/-- C6 counterexample: `totalSize = 100` gives chunk size 10, and the valid
window `fromByte = 0, untilByte = 10` (chunk size divides `untilByte`)
produces `firstChunkTrim = 0`, `requestedLength = 11`, `chunkCount = 1`:
`firstChunkTrim + requestedLength ≤ chunkCount × chunkSize` fails, 11 > 10. -/
theorem chunk_bound_counterexample :
    media_streamer_range props100 (some (0, some 10)) =
      Except.ok (StreamResponse.streaming 206
        { offset := 0, first_part_cut := 0, last_part_cut := 1, req_length := 11,
          part_count := 1, chunk_size := 10 } 0 10 100 11)
    ∧ ¬((0 : Int) + 11 ≤ 1 * 10) := by decide

/-- C6 amended: for every valid window whose `untilByte` is not an exact
multiple of the derived chunk size, `firstChunkTrim + requestedLength ≤
chunkCount × chunkSize` holds; when the chunk size divides `untilByte` the
plan undercounts the final chunk and the bound fails (counterexample above). -/
theorem chunk_bound_amended (size f u c : Int)
    (hceq : c = min 1048576 (pyFloorDiv size 10))
    (hf : 0 ≤ f) (hfu : f ≤ u) (hu : u ≤ size - 1) (hc : 0 < c)
    (hnd : Int.emod u c ≠ 0) :
    (code_chunk_plan f u c).first_part_cut + (code_chunk_plan f u c).req_length ≤
      (code_chunk_plan f u c).part_count * (code_chunk_plan f u c).chunk_size := by
  have hoff : f - Int.emod f c = c * Int.ediv f c := aligned_offset_eq f c
  have hdiv : Int.ediv (c * Int.ediv f c) c = Int.ediv f c :=
    Int.mul_ediv_cancel_left _ (ne_of_gt hc)
  have hceil : ceilDiv u c = Int.ediv u c + 1 := ceilDiv_eq_ediv_add_one u c hc hnd
  have hmodu : c * Int.ediv u c + Int.emod u c = u := Int.ediv_add_emod u c
  have hruc : Int.emod u c < c := Int.emod_lt_of_pos u hc
  show (f - (f - Int.emod f c)) + (u - f + 1) ≤
    (ceilDiv u c - Int.ediv (f - Int.emod f c) c) * c
  rw [hoff, hdiv, hceil]
  have hexp : (Int.ediv u c + 1 - Int.ediv f c) * c =
      c * Int.ediv u c + c - c * Int.ediv f c := by ring
  rw [hexp]
  linarith

/-- C6 amended witness: window `fromByte = 15, untilByte = 25` of the
100-byte file, chunk size 10. -/
theorem chunk_bound_amended_witness :
    (10 : Int) = min 1048576 (pyFloorDiv 100 10)
    ∧ (0 : Int) ≤ 15 ∧ (15 : Int) ≤ 25 ∧ (25 : Int) ≤ 100 - 1 ∧ (0 : Int) < 10
    ∧ Int.emod 25 10 ≠ 0
    ∧ ((code_chunk_plan 15 25 10).first_part_cut +
          (code_chunk_plan 15 25 10).req_length ≤
        (code_chunk_plan 15 25 10).part_count * (code_chunk_plan 15 25 10).chunk_size) :=
  ⟨by decide, by decide, by decide, by decide, by decide, by decide,
    chunk_bound_amended 100 15 25 10 (by decide) (by decide) (by decide)
      (by decide) (by decide) (by decide)⟩

/-- C10: for every valid window with positive derived chunk size, the plan's
`alignedOffset` is a multiple of the chunk size and `alignedOffset ≤
fromByte`. -/
theorem aligned_offset_invariant (size f u c : Int)
    (hceq : c = min 1048576 (pyFloorDiv size 10))
    (hf : 0 ≤ f) (hfu : f ≤ u) (hu : u ≤ size - 1) (hc : 0 < c) :
    c ∣ (code_chunk_plan f u c).offset ∧ (code_chunk_plan f u c).offset ≤ f := by
  constructor
  · exact ⟨Int.ediv f c, aligned_offset_eq f c⟩
  · show f - Int.emod f c ≤ f
    have hmn : (0 : Int) ≤ Int.emod f c := Int.emod_nonneg f (ne_of_gt hc)
    linarith

/-- C1: with a validly signed, unexpired token, authorization succeeds exactly
when the requested id equals the token's bound file-reference id (`fileId`,
the bundle override path) or the token's primary content id; any other id is
rejected with 401 by `stream_handler` before and independently of any lookup.
In particular `fileId = "F1"`, `contentId = "C1"` authorizes request id
`"F1"` and rejects `"C2"`. -/
theorem stream_auth_token_scope (token_id token_file_id id : String)
    (hid : id ≠ "") :
    ((∃ b, authorize_stream token_id token_file_id id = AuthDecision.authorized b) ↔
      (id = token_file_id ∨ id = token_id))
    ∧ (∀ (tok : TokenData) (now : Int) (bh bf : Option BundleRecord)
        (vd : Except PyError (Int × Int × String)) (wl : List (Nat × Nat))
        (mc : List Nat) (props : FileProperties)
        (range_header : Option (Int × Option Int)),
        tok.id = some token_id → tok.fileId = some token_file_id →
        verify_stream_token tok now = Except.ok tok →
        ¬(id = token_file_id ∨ id = token_id) →
        stream_handler (some tok) now id bh bf vd wl mc props range_header =
          Except.error 401)
    ∧ authorize_stream "C1" "F1" "F1" = AuthDecision.authorized true
    ∧ authorize_stream "C1" "F1" "C2" = AuthDecision.rejected 401 := by
  have hrej : ¬(id = token_file_id ∨ id = token_id) →
      authorize_stream token_id token_file_id id = AuthDecision.rejected 401 := by
    intro hneg
    unfold authorize_stream
    split_ifs with h1 h2
    · exact absurd (Or.inl h1.2.symm) hneg
    · rfl
    · exact absurd (Or.inr (not_ne_iff.mp h2).symm) hneg
  refine ⟨?_, ?_, by decide, by decide⟩
  · constructor
    · rintro ⟨b, hb⟩
      unfold authorize_stream at hb
      by_cases h1 : token_file_id ≠ "" ∧ token_file_id = id
      · exact Or.inl h1.2.symm
      · rw [if_neg h1] at hb
        by_cases h2 : token_id ≠ id
        · rw [if_pos h2] at hb
          exact AuthDecision.noConfusion hb
        · exact Or.inr (not_ne_iff.mp h2).symm
    · intro h
      by_cases h1 : token_file_id ≠ "" ∧ token_file_id = id
      · exact ⟨true, by unfold authorize_stream; rw [if_pos h1]⟩
      · rcases h with h | h
        · exact absurd ⟨fun he => hid (h.trans he), h.symm⟩ h1
        · refine ⟨false, ?_⟩
          unfold authorize_stream
          rw [if_neg h1, if_neg (not_ne_iff.mpr h.symm)]
  · intro tok now bh bf vd wl mc props range_header hidtok hfid hver hneg
    simp only [stream_handler, hver, hidtok, hfid, Option.getD_some, hrej hneg]

/-- C1 witness: token bound to `contentId = "C1"`, `fileId = "F1"`, requested
id `"F1"`. -/
theorem stream_auth_token_scope_witness :
    ("F1" : String) ≠ ""
    ∧ (((∃ b, authorize_stream "C1" "F1" "F1" = AuthDecision.authorized b) ↔
        (("F1" : String) = "F1" ∨ ("F1" : String) = "C1"))
      ∧ (∀ (tok : TokenData) (now : Int) (bh bf : Option BundleRecord)
          (vd : Except PyError (Int × Int × String)) (wl : List (Nat × Nat))
          (mc : List Nat) (props : FileProperties)
          (range_header : Option (Int × Option Int)),
          tok.id = some "C1" → tok.fileId = some "F1" →
          verify_stream_token tok now = Except.ok tok →
          ¬(("F1" : String) = "F1" ∨ ("F1" : String) = "C1") →
          stream_handler (some tok) now "F1" bh bf vd wl mc props range_header =
            Except.error 401)
      ∧ authorize_stream "C1" "F1" "F1" = AuthDecision.authorized true
      ∧ authorize_stream "C1" "F1" "C2" = AuthDecision.rejected 401) :=
  ⟨by decide, stream_auth_token_scope "C1" "F1" "F1" (by decide)⟩

/-- C2: when a nonempty content identity hash is stored, `media_streamer`
raises `InvalidHash` exactly when the first 6 characters of the fetched
file's unique id differ from the stored hash, before any range handling or
byte production; on a match the request proceeds to range handling
unchanged; with no stored hash it proceeds unverified (legacy carve-out).
The compare is a prefix compare: stored hash "abc123" matches unique id
"abc123xyz999" and rejects "xyz999abc123". -/
theorem integrity_gate (wl : List (Nat × Nat)) (mc : List Nat)
    (props : FileProperties) (range_header : Option (Int × Option Int))
    (h : String) (hne : h ≠ "") (i : Nat)
    (hsel : select_client wl = some i) (hmem : i ∈ mc) :
    (media_streamer wl mc props (some h) range_header =
        Except.error PyError.invalidHash ↔ props.unique_id.take 6 ≠ h)
    ∧ (props.unique_id.take 6 = h →
        media_streamer wl mc props (some h) range_header =
          media_streamer_range props range_header)
    ∧ media_streamer wl mc props none range_header =
        media_streamer_range props range_header
    ∧ integrity_check (some "abc123") "abc123xyz999" = true
    ∧ integrity_check (some "abc123") "xyz999abc123" = false := by
  have hms : media_streamer wl mc props (some h) range_header =
      (if integrity_check (some h) props.unique_id = true then
        media_streamer_range props range_header
      else Except.error PyError.invalidHash) := by
    simp only [media_streamer, hsel]
    rw [if_pos hmem]
  have hic : integrity_check (some h) props.unique_id =
      (props.unique_id.take 6 == h) := by
    simp only [integrity_check]
    rw [if_neg hne]
  rw [hic] at hms
  refine ⟨?_, ?_, ?_, by decide, by decide⟩
  · rcases eq_or_ne (props.unique_id.take 6) h with heq | heq
    · rw [hms, if_pos (beq_iff_eq.mpr heq)]
      constructor
      · intro hcon
        exact absurd hcon (media_streamer_range_no_hash_error props range_header)
      · intro hcon
        exact absurd heq hcon
    · rw [hms, if_neg (by simp [heq])]
      simp [heq]
  · intro heq
    rw [hms, if_pos (beq_iff_eq.mpr heq)]
  · simp only [media_streamer, hsel]
    rw [if_pos hmem]
    simp [integrity_check]

/-- C2 witness: one registered client, the 100-byte file with unique id
"abc123xyz999" and stored hash "abc123". -/
theorem integrity_gate_witness :
    ("abc123" : String) ≠ ""
    ∧ select_client [(0, 0)] = some 0
    ∧ (0 : Nat) ∈ [0]
    ∧ ((media_streamer [(0, 0)] [0] props100 (some "abc123") none =
          Except.error PyError.invalidHash ↔ props100.unique_id.take 6 ≠ "abc123")
      ∧ (props100.unique_id.take 6 = "abc123" →
          media_streamer [(0, 0)] [0] props100 (some "abc123") none =
            media_streamer_range props100 none)
      ∧ media_streamer [(0, 0)] [0] props100 none none =
          media_streamer_range props100 none
      ∧ integrity_check (some "abc123") "abc123xyz999" = true
      ∧ integrity_check (some "abc123") "xyz999abc123" = false) :=
  ⟨by decide, by decide, by decide,
    integrity_gate [(0, 0)] [0] props100 none "abc123" (by decide) 0
      (by decide) (by decide)⟩

/-- C7 (code bug): with no registered load-map identities, `min()` raises
`ValueError` (the empty check on main.py 321-322 only logs); with the
selected identity missing from the client registry, `multi_clients[index]` on
line 325 raises `KeyError` before the 503 guard on lines 327-329 can run.
`stream_handler`'s generic exception handler maps both to HTTP 500 — not the
503 `NoCapacity` / `ConfigurationError` responses the claim describes. -/
theorem client_selection_surfaces_500 :
    media_streamer [] [] props1000 none none = Except.error PyError.valueError
    ∧ media_streamer [(0, 0)] [] props1000 none none = Except.error PyError.keyError
    ∧ map_stream_error PyError.valueError = 500
    ∧ map_stream_error PyError.keyError = 500
    ∧ stream_handler (some tok_c1) 0 "C1" none none (Except.ok (1, 1, "abcdef"))
        [] [] props1000 none = Except.error 500
    ∧ stream_handler (some tok_c1) 0 "C1" none none (Except.ok (1, 1, "abcdef"))
        [(0, 0)] [] props1000 none = Except.error 500 := by decide

/-- C8: a signed token carrying no `expiry` claim passes
`verify_stream_token` at every point in time — the expiry comparison is
evaluated only when the key is present, so such a token is never rejected as
expired. -/
theorem token_without_expiry_accepted (decoded : TokenData) (now : Int)
    (h : decoded.expiry = none) :
    verify_stream_token decoded now = Except.ok decoded := by
  unfold verify_stream_token
  rw [h]

/-- C8 witness: the expiry-free token checked far in the future. -/
theorem token_without_expiry_accepted_witness :
    tok_no_expiry.expiry = none
    ∧ verify_stream_token tok_no_expiry 1893456000 = Except.ok tok_no_expiry :=
  ⟨rfl, token_without_expiry_accepted tok_no_expiry 1893456000 rfl⟩

/-- C9 counterexample: a handle constructed at time 0 and hit again at time
1800 (well within each TTL interval) keeps timestamp 0 — the hit does not
refresh it — and the sweep at time 3601 removes the entry even though it was
used 1801 seconds before. -/
theorem cache_refresh_counterexample :
    acquire_handle (acquire_handle [] 0 0) 0 1800 = [(0, 0)]
    ∧ clean_cache (acquire_handle (acquire_handle [] 0 0) 0 1800) 3601 = [] := by
  decide

/-- C9 amended: a cache hit leaves `class_cache` completely unchanged (the
stored timestamp records construction time only, main.py 333-337), and
`clean_cache` drops every entry whose timestamp is more than 3600 seconds
old regardless of intervening hits — so a handle in steady use is still
evicted once 3600 seconds have passed since its construction. -/
theorem cache_hit_does_not_refresh (cache : List (Nat × Int)) (client : Nat)
    (now : Int) (hhit : (cache.lookup client).isSome = true) :
    acquire_handle cache client now = cache
    ∧ ∀ (sweep_time : Int) (k : Nat) (ts : Int), sweep_time - ts > 3600 →
        (k, ts) ∉ clean_cache cache sweep_time := by
  constructor
  · unfold acquire_handle
    rw [if_pos hhit]
  · intro t k ts hgt hmem
    unfold clean_cache at hmem
    have hkeep := (List.mem_filter.mp hmem).2
    simp only [decide_eq_true_eq] at hkeep
    omega

/-- C9 amended witness: a handle constructed at time 5 and hit at time 100. -/
theorem cache_hit_does_not_refresh_witness :
    (([((0 : Nat), (5 : Int))].lookup 0).isSome = true)
    ∧ (acquire_handle [(0, 5)] 0 100 = [(0, 5)]
      ∧ ∀ (sweep_time : Int) (k : Nat) (ts : Int), sweep_time - ts > 3600 →
          (k, ts) ∉ clean_cache [(0, 5)] sweep_time) :=
  ⟨by decide, cache_hit_does_not_refresh [(0, 5)] 0 100 (by decide)⟩

/-- C10 witness: window `fromByte = 15, untilByte = 25` of the 100-byte file,
chunk size 10. -/
theorem aligned_offset_invariant_witness :
    (10 : Int) = min 1048576 (pyFloorDiv 100 10)
    ∧ (0 : Int) ≤ 15 ∧ (15 : Int) ≤ 25 ∧ (25 : Int) ≤ 100 - 1 ∧ (0 : Int) < 10
    ∧ ((10 : Int) ∣ (code_chunk_plan 15 25 10).offset
        ∧ (code_chunk_plan 15 25 10).offset ≤ 15) :=
  ⟨by decide, by decide, by decide, by decide, by decide,
    aligned_offset_invariant 100 15 25 10 (by decide) (by decide) (by decide)
      (by decide) (by decide)⟩

end Reelnn
